import Mathlib

/-!
Shallow embedding of the OpenSPP adaptor, `src/packages/openspp/src/Adaptor.js`
of the openfn-adaptors repository.

The adaptor's operations assemble query options (a domain of filter clauses,
fields, limit, optional order and offset), hand them to the backend SDK's
`search_read` together with a completion handler, and reduce the delivered
`(err, result)` outcome into the next pipeline state.  We embed the JS values
the adaptor inspects (including JS truthiness, which drives the `if (err)` and
`if (!result)` guards), the per-operation option assembly, and the completion
handlers.  Backend callbacks are modelled as delivered synchronously with a
caller-chosen `(err, result)` outcome; in `getEnrolledPrograms`, the temporal
ordering between the two reads is represented by the data flow from the first
callback's assignment of `programIds` to the second read's options.
-/

namespace OpenSpp

/-- A JavaScript value, as far as the adaptor inspects values: `undefined`,
`null`, booleans, numbers (the adaptor only uses integers), strings and
arrays. -/
inductive JSVal where
  | vUndefined
  | vNull
  | vBool (b : Bool)
  | vInt (n : Int)
  | vStr (s : String)
  | vArr (elems : List JSVal)

/-- JavaScript truthiness for the values of `JSVal`: `undefined`, `null`,
`false`, `0` and the empty string are falsy; every array (the empty array
included) is truthy. -/
def truthy : JSVal → Bool
  | JSVal.vUndefined => false
  | JSVal.vNull => false
  | JSVal.vBool b => b
  | JSVal.vInt n => n != 0
  | JSVal.vStr s => s != ""
  | JSVal.vArr _ => true

/-- JavaScript `.length` of an array value; the adaptor only takes `.length`
of backend result arrays. -/
def jsLength : JSVal → Nat
  | JSVal.vArr elems => elems.length
  | _ => 0

/-- A filter clause `[field, operator, value]` as the adaptor writes it:
a three-element JS array. -/
def clause (fieldName operatorName : String) (v : JSVal) : JSVal :=
  JSVal.vArr [JSVal.vStr fieldName, JSVal.vStr operatorName, v]

/-- The options object passed to `search_read`: `offset = none` and
`order = none` model the absence of those keys on the JS object. -/
structure QueryOptions where
  domain : List JSVal
  limit : Nat
  fields : List String
  order : Option String
  offset : Option Int

/-- The credential part of the pipeline state, `state.configuration`
(read in `login`, lines 65-72). -/
structure SppConfiguration where
  baseUrl : String
  username : String
  password : String
  database : String
deriving Repr, DecidableEq

/-- Pipeline state as the adaptor uses it: `configuration`, the current
`data` payload, and the `references` history. -/
structure SppState where
  configuration : SppConfiguration
  data : JSVal
  references : List JSVal

/-- Modelled from the spec: `composeNextState` is imported from
`@openfn/language-common` (line 3), a package of this repository that is not
included under `src/`.  Per the spec (StateReducer, non-empty ResultSet), the
next state is the prior state with `data` replaced by the result payload and
`references` extended by appending the previous `data` value; the merge is
pure. -/
def composeNextState (st : SppState) (payload : JSVal) : SppState :=
  { st with data := payload, references := st.references ++ [st.data] }

/-- Log severities of the `Log` class (lines 13-29); only severity routing is
modelled, not the timestamped console formatting. -/
inductive Sev where
  | info
  | success
  | warn
  | error
deriving Repr, DecidableEq

/-- What a completion handler returns: `undef` for the `return Log.error(...)`
and `return Log.warn(...)` branches (both `Log` methods return `undefined`),
`next s` for `return nextState`, and `fromCallback v` for
`return callback(nextState)`. -/
inductive HandlerRet (ρ : Type) where
  | undef
  | next (s : SppState)
  | fromCallback (v : ρ)

/-- The completion handler shared (up to its message strings) by every
single-read operation, e.g. lines 112-125 of `getGroup`:
`if (err) return Log.error(err); if (!result) return Log.warn(warnMsg);
Log.info(infoMsg); let nextState = composeNextState(state, result);
if (callback) return callback(nextState); return nextState;`.
The returned pair is (emitted log entries, handler return value). -/
def readHandler (ρ : Type) (st : SppState) (cb : Option (SppState → ρ))
    (warnMsg infoMsg : String) : Option String → JSVal → List (Sev × String) × HandlerRet ρ
  | some e, _ => ([(Sev.error, e)], HandlerRet.undef)
  | none, result =>
    if truthy result then
      let nextState := composeNextState st result
      match cb with
      | some f => ([(Sev.info, infoMsg)], HandlerRet.fromCallback (f nextState))
      | none => ([(Sev.info, infoMsg)], HandlerRet.next nextState)
    else
      ([(Sev.warn, warnMsg)], HandlerRet.undef)

/-- Handler of `getGroup` (lines 112-125), with its message strings. -/
def getGroupHandler (ρ : Type) (st : SppState) (cb : Option (SppState → ρ))
    (registrant_id : String) : Option String → JSVal → List (Sev × String) × HandlerRet ρ :=
  readHandler ρ st cb ("Group " ++ registrant_id ++ " not found!")
    ("Group " ++ registrant_id ++ " found!")

/-- Handler of `getIndividual` (lines 160-173). -/
def getIndividualHandler (ρ : Type) (st : SppState) (cb : Option (SppState → ρ))
    (registrant_id : String) : Option String → JSVal → List (Sev × String) × HandlerRet ρ :=
  readHandler ρ st cb ("Individual with id=" ++ registrant_id ++ " not found!")
    ("Individual with id=" ++ registrant_id ++ " found!")

/-- Handler of `getGroupMembers` (lines 209-222). -/
def getGroupMembersHandler (ρ : Type) (st : SppState) (cb : Option (SppState → ρ))
    (registrant_id : String) : Option String → JSVal → List (Sev × String) × HandlerRet ρ :=
  readHandler ρ st cb ("Household " ++ registrant_id ++ " not found or not having members!")
    ("Household " ++ registrant_id ++ " members found!")

/-- Handler of `getServicePoint` (lines 255-268). -/
def getServicePointHandler (ρ : Type) (st : SppState) (cb : Option (SppState → ρ))
    (name : String) : Option String → JSVal → List (Sev × String) × HandlerRet ρ :=
  readHandler ρ st cb ("Agent " ++ name ++ " not found!") ("Agent " ++ name ++ " found!")

/-- Handler of `searchGroup` (lines 312-325); `domainStr` is the JS string
interpolation of the caller's domain. -/
def searchGroupHandler (ρ : Type) (st : SppState) (cb : Option (SppState → ρ))
    (domainStr : String) : Option String → JSVal → List (Sev × String) × HandlerRet ρ :=
  readHandler ρ st cb ("Group with domain=" ++ domainStr ++ " not found!")
    ("Group with domain=" ++ domainStr ++ " found!")

/-- Handler of `searchIndividual` (lines 369-382). -/
def searchIndividualHandler (ρ : Type) (st : SppState) (cb : Option (SppState → ρ))
    (domainStr : String) : Option String → JSVal → List (Sev × String) × HandlerRet ρ :=
  readHandler ρ st cb ("Individual with domain=" ++ domainStr ++ " not found!")
    ("Individual with domain=" ++ domainStr ++ " found!")

/-- Handler of `getProgram` (lines 411-424). -/
def getProgramHandler (ρ : Type) (st : SppState) (cb : Option (SppState → ρ))
    (program_id : String) : Option String → JSVal → List (Sev × String) × HandlerRet ρ :=
  readHandler ρ st cb ("Program " ++ program_id ++ " not found!")
    ("Program " ++ program_id ++ " found!")

/-- Handler of `getPrograms` (lines 453-466). -/
def getProgramsHandler (ρ : Type) (st : SppState) (cb : Option (SppState → ρ)) :
    Option String → JSVal → List (Sev × String) × HandlerRet ρ :=
  readHandler ρ st cb "No program found!" "Program(s) found!"

/-- Options assembled by `getGroup` (lines 97-111). -/
def getGroupOptions (registrant_id : String) : QueryOptions :=
  { domain :=
      [clause "is_registrant" "=" (JSVal.vBool true),
       clause "is_group" "=" (JSVal.vBool true),
       clause "registrant_id" "=" (JSVal.vStr registrant_id)]
    limit := 1
    fields := ["name", "address", "phone", "kind", "registration_date", "registrant_id"]
    order := some "id desc"
    offset := none }

/-- Options assembled by `getIndividual` (lines 144-159); its domain repeats
`getGroup`'s `is_group = true` clause. -/
def getIndividualOptions (registrant_id : String) : QueryOptions :=
  { domain :=
      [clause "is_registrant" "=" (JSVal.vBool true),
       clause "is_group" "=" (JSVal.vBool true),
       clause "registrant_id" "=" (JSVal.vStr registrant_id)]
    limit := 1
    fields := ["name", "address", "phone", "registrant_id",
               "gender", "email", "category_id", "birthdate"]
    order := some "id desc"
    offset := none }

/-- Options assembled by `getGroupMembers` (lines 193-208): `offset` is added
to the options object only when strictly positive. -/
def getGroupMembersOptions (registrant_id : String) (offset : Int) : QueryOptions :=
  { domain :=
      [clause "is_ended" "=" (JSVal.vBool false),
       clause "group.registrant_id" "=" (JSVal.vStr registrant_id)]
    limit := 100
    fields := ["individual", "kind", "start_date", "ended_date",
               "individual_birthdate", "individual_gender"]
    order := none
    offset := if offset > 0 then some offset else none }

/-- Options assembled by `getServicePoint` (lines 242-254): `offset` is added
only when strictly positive. -/
def getServicePointOptions (name : String) (offset : Int) : QueryOptions :=
  { domain := [clause "name" "=" (JSVal.vStr name)]
    limit := 100
    fields := ["name", "area_id", "service_type_ids", "phone_sanitized",
               "shop_address", "is_contract_active", "is_disabled"]
    order := none
    offset := if offset > 0 then some offset else none }

/-- Whether a JS value is an array (`Array.isArray`). -/
def isArr : JSVal → Bool
  | JSVal.vArr _ => true
  | _ => false

/-- Canonicalization of the caller's domain, lines 294-303 of `searchGroup`
(and identically lines 351-360 of `searchIndividual`): the loop clears
`isDomain` iff some top-level element is not an array, and then a non-domain
input is wrapped as `[domain]`. -/
def canonicalizeDomain (domain : List JSVal) : List JSVal :=
  if domain.all isArr then domain else [JSVal.vArr domain]

/-- The default clauses of `searchGroup` (lines 288-291). -/
def searchGroupDefaultDomain : List JSVal :=
  [clause "is_registrant" "=" (JSVal.vBool true),
   clause "is_group" "=" (JSVal.vBool true)]

/-- The default clauses of `searchIndividual` (lines 345-348). -/
def searchIndividualDefaultDomain : List JSVal :=
  [clause "is_registrant" "=" (JSVal.vBool true),
   clause "is_group" "=" (JSVal.vBool false)]

/-- `finalDomain` of `searchGroup` (line 304): canonicalized caller clauses
followed by the defaults. -/
def searchGroupFinalDomain (domain : List JSVal) : List JSVal :=
  canonicalizeDomain domain ++ searchGroupDefaultDomain

/-- `finalDomain` of `searchIndividual` (line 361). -/
def searchIndividualFinalDomain (domain : List JSVal) : List JSVal :=
  canonicalizeDomain domain ++ searchIndividualDefaultDomain

/-- Options assembled by `searchGroup` (lines 305-311): the `offset` key is
written unconditionally. -/
def searchGroupOptions (domain : List JSVal) (offset : Int) : QueryOptions :=
  { domain := searchGroupFinalDomain domain
    limit := 100
    fields := ["name", "registrant_id"]
    order := some "id desc"
    offset := some offset }

/-- Options assembled by `searchIndividual` (lines 362-368): the `offset` key
is written unconditionally. -/
def searchIndividualOptions (domain : List JSVal) (offset : Int) : QueryOptions :=
  { domain := searchIndividualFinalDomain domain
    limit := 100
    fields := ["name", "registrant_id"]
    order := some "id desc"
    offset := some offset }

/-- Options assembled by `getProgram` (lines 401-410). -/
def getProgramOptions (program_id : String) : QueryOptions :=
  { domain := [clause "program_id" "=" (JSVal.vStr program_id)]
    limit := 1
    fields := ["name", "program_id", "eligible_beneficiaries_count",
               "cycles_count", "state", "target_type"]
    order := none
    offset := none }

/-- Options assembled by `getPrograms` (lines 443-452): the `offset` key is
written unconditionally. -/
def getProgramsOptions (offset : Int) : QueryOptions :=
  { domain := []
    limit := 100
    fields := ["name", "program_id"]
    order := some "id"
    offset := some offset }

/-- Options of the first read of `getEnrolledPrograms` (lines 485-494). -/
def enrolledStep1Options (registrant_id : String) : QueryOptions :=
  { domain := [clause "partner_id.registrant_id" "=" (JSVal.vStr registrant_id)]
    limit := 500
    fields := ["program_id"]
    order := none
    offset := none }

/-- The completion handler of the second read of `getEnrolledPrograms`
(lines 514-520): it checks neither `err` nor the result, logs nothing, and
composes the next state from `programs` as delivered. -/
def enrolledStep2Handler (ρ : Type) (st : SppState) (cb : Option (SppState → ρ))
    (err : Option String) (programs : JSVal) : List (Sev × String) × HandlerRet ρ :=
  let nextState := composeNextState st programs
  ([],
    match cb with
    | some f => HandlerRet.fromCallback (f nextState)
    | none => HandlerRet.next nextState)

/-- Trace of one run of the operation body of `getEnrolledPrograms`
(lines 484-523). -/
structure EnrolledRun (ρ : Type) where
  logs : List (Sev × String)
  secondIssued : Bool
  secondOptions : Option QueryOptions
  ret : HandlerRet ρ

/-- One run of the operation body of `getEnrolledPrograms` (lines 484-523),
with callbacks delivered synchronously.  `step1Err`/`step1Res` is the
`(err, program_ids)` outcome delivered to the first read's callback, which
assigns `programIds` only on its success branch; `step2Err`/`step2Res` is the
outcome delivered to the second read's callback, consulted only when
`if (programIds)` is truthy and the second read is issued.  The second read's
options are `{domain: [["id","in",programIds]], fields: defaultFields,
limit: programIds.length}`; when the second read is not issued the body falls
through and yields `undefined`. -/
def getEnrolledProgramsRun (ρ : Type) (st : SppState) (cb : Option (SppState → ρ))
    (step1Err : Option String) (step1Res : JSVal)
    (step2Err : Option String) (step2Res : JSVal) : EnrolledRun ρ :=
  let step1 : List (Sev × String) × JSVal :=
    match step1Err with
    | some e => ([(Sev.error, e)], JSVal.vUndefined)
    | none =>
      if truthy step1Res then ([(Sev.info, "Enrolled program(s) found!")], step1Res)
      else ([(Sev.warn, "No enrolled program(s) found!")], JSVal.vUndefined)
  let programIds := step1.2
  if truthy programIds then
    { logs := step1.1
      secondIssued := true
      secondOptions := some
        { domain := [JSVal.vArr [JSVal.vStr "id", JSVal.vStr "in", programIds]]
          limit := jsLength programIds
          fields := ["program_id"]
          order := none
          offset := none }
      ret := (enrolledStep2Handler ρ st cb step2Err step2Res).2 }
  else
    { logs := step1.1
      secondIssued := false
      secondOptions := none
      ret := HandlerRet.undef }

/-- The connector object built by `login` (lines 67-72) from
`state.configuration`. -/
structure OdooConfig where
  host : String
  database : String
  username : String
  password : String
deriving Repr, DecidableEq

/-- One run of `login` (lines 65-80) with the `connect` callback delivered
synchronously with outcome `connectErr`: the connector built from
`state.configuration`, the emitted log entries, and the message of the
thrown `Error` when the handshake failed (`none` when nothing is thrown). -/
def loginRun (st : SppState) (connectErr : Option String) :
    OdooConfig × List (Sev × String) × Option String :=
  let conn : OdooConfig :=
    { host := st.configuration.baseUrl
      database := st.configuration.database
      username := st.configuration.username
      password := st.configuration.password }
  match connectErr with
  | some e =>
      (conn, [(Sev.error, e)],
        some "Can't login to OpenSPP, please check your credentials or network!")
  | none => (conn, [], none)

/-- Outcome of applying one composed operation to a state: a next state, or a
thrown error. -/
inductive OpOutcome (σ : Type) where
  | ok (s : σ)
  | thrown (msg : String)
deriving DecidableEq

/-- Sequential execution of composed operations (the `execute` wrapper around
`language-common`'s sequential reduction, lines 44-55): a thrown error stops
the sequence. -/
def runOps {σ : Type} : List (σ → OpOutcome σ) → σ → OpOutcome σ
  | [], s => OpOutcome.ok s
  | op :: rest, s =>
    match op s with
    | OpOutcome.ok s2 => runOps rest s2
    | OpOutcome.thrown m => OpOutcome.thrown m

/-- The names bound at module scope of `Adaptor.js`: the imports of lines 1-8
and the top-level declarations.  The re-export block of lines 529-541 binds no
module-scope names. -/
def moduleScopeNames : List String :=
  ["commonExecute", "composeNextState", "expandReferences", "pkg", "Odoo",
   "sppConnector", "Log", "execute", "login",
   "getGroup", "getIndividual", "getGroupMembers", "getServicePoint",
   "searchGroup", "searchIndividual", "getProgram", "getPrograms",
   "getEnrolledPrograms"]

/-- The prologue shared by every operation factory (e.g. lines 93-95 of
`getGroup`): when the module-level connector is null it evaluates
`login(state)`, and evaluating the argument `state` resolves that identifier
against the factory scope (the factory's parameters over the module scope);
an unbound identifier throws a ReferenceError, so no operation function is
produced.  When the connector is non-null the factory skips the prologue and
returns the operation function. -/
def factoryPrologue (params : List String) (connectorIsNull : Bool) : Except String Unit :=
  if connectorIsNull then
    if (moduleScopeNames ++ params).contains "state" then Except.ok ()
    else Except.error "ReferenceError: state is not defined"
  else Except.ok ()

/-- A concrete pipeline state used by witnesses and counterexamples. -/
def sampleState : SppState :=
  { configuration :=
      { baseUrl := "https://spp.example.org"
        username := "admin"
        password := "pw"
        database := "spp" }
    data := JSVal.vNull
    references := [] }

/-- C1 counterexample: the claim says the query options of every list-style
operation contain `offset` iff the offset is strictly positive, but
`searchGroup` writes the `offset` key unconditionally: at offset `0` the
options carry `offset = 0` although `0 > 0` is false. -/
theorem c1_offset_counterexample :
    (searchGroupOptions [] 0).offset = some 0 ∧ ¬ ((0 : Int) > 0) :=
  ⟨rfl, by decide⟩

/-- C1 (amended): `getGroupMembers` and `getServicePoint` add the `offset`
key exactly when the caller-supplied offset is strictly positive, with the
exact value; `searchGroup`, `searchIndividual` and `getPrograms` always write
the `offset` key with the exact value given, whatever its sign. -/
theorem c1_offset_policy (registrant_id nm : String) (dom : List JSVal) (offset : Int) :
    (getGroupMembersOptions registrant_id offset).offset
        = (if offset > 0 then some offset else none)
      ∧ (getServicePointOptions nm offset).offset
        = (if offset > 0 then some offset else none)
      ∧ (searchGroupOptions dom offset).offset = some offset
      ∧ (searchIndividualOptions dom offset).offset = some offset
      ∧ (getProgramsOptions offset).offset = some offset :=
  ⟨rfl, rfl, rfl, rfl, rfl⟩

/-- C7: `searchGroup` and `searchIndividual` build the final domain as the
canonicalized caller clauses followed by the entity defaults; empty caller
input yields exactly the defaults; the claim's concrete example holds; and a
single non-sequence clause is wrapped into a one-element sequence by
canonicalization. -/
theorem c7_domain_merge (dom : List JSVal) :
    searchGroupFinalDomain dom = canonicalizeDomain dom ++ searchGroupDefaultDomain
      ∧ searchIndividualFinalDomain dom
        = canonicalizeDomain dom ++ searchIndividualDefaultDomain
      ∧ searchGroupFinalDomain [] = searchGroupDefaultDomain
      ∧ searchIndividualFinalDomain [] = searchIndividualDefaultDomain
      ∧ searchGroupFinalDomain [clause "registrant_id" "=" (JSVal.vStr "GRP_1")]
        = [clause "registrant_id" "=" (JSVal.vStr "GRP_1"),
           clause "is_registrant" "=" (JSVal.vBool true),
           clause "is_group" "=" (JSVal.vBool true)]
      ∧ canonicalizeDomain [JSVal.vStr "name", JSVal.vStr "=", JSVal.vStr "X"]
        = [JSVal.vArr [JSVal.vStr "name", JSVal.vStr "=", JSVal.vStr "X"]] :=
  ⟨rfl, rfl, rfl, rfl, rfl, rfl⟩

/-- C9: `getIndividual` issues its read with the same domain as `getGroup`
for the same identifier — including the `is_group = true` clause — while
`searchIndividual`'s defaults select `is_group = false`. -/
theorem c9_individual_domain (registrant_id : String) :
    (getIndividualOptions registrant_id).domain = (getGroupOptions registrant_id).domain
      ∧ (getIndividualOptions registrant_id).domain
        = [clause "is_registrant" "=" (JSVal.vBool true),
           clause "is_group" "=" (JSVal.vBool true),
           clause "registrant_id" "=" (JSVal.vStr registrant_id)]
      ∧ searchIndividualDefaultDomain
        = [clause "is_registrant" "=" (JSVal.vBool true),
           clause "is_group" "=" (JSVal.vBool false)] :=
  ⟨rfl, rfl, rfl⟩

/-- C2 counterexample: the claim says an empty or absent result set yields
exactly one warning and the unchanged prior state, but `getGroup`'s handler
guards with JS falsiness: an empty array result is truthy, so it logs at info
severity (no warning) and computes a new state; and at an absent result the
handler returns `undefined` (the value of `Log.warn`), not the prior state. -/
theorem c2_empty_result_counterexample :
    (getGroupHandler Unit sampleState Option.none "GRP_1" none (JSVal.vArr [])).1
        = [(Sev.info, "Group GRP_1 found!")]
      ∧ (getGroupHandler Unit sampleState Option.none "GRP_1" none JSVal.vUndefined).2
        = HandlerRet.undef
      ∧ (getGroupHandler Unit sampleState Option.none "GRP_1" none JSVal.vUndefined).2
        ≠ HandlerRet.next sampleState :=
  ⟨rfl, rfl, by simp [getGroupHandler, readHandler, truthy]⟩

/-- C2 (amended): for every operation's completion handler (each is an
instance of `readHandler`), when the read completes without transport error
and the result is falsy (absent), the handler emits exactly one warning-level
log and no error-level log, and yields `undefined` — it does not return the
prior state; an empty-array result is truthy and is handled as found, with a
single info-level log. -/
theorem c2_empty_result (ρ : Type) (st : SppState) (cb : Option (SppState → ρ))
    (wm im : String) (result : JSVal) (h : truthy result = false) :
    readHandler ρ st cb wm im none result = ([(Sev.warn, wm)], HandlerRet.undef)
      ∧ (readHandler ρ st cb wm im none (JSVal.vArr [])).1 = [(Sev.info, im)] := by
  constructor
  · simp [readHandler, h]
  · cases cb <;> simp [readHandler, truthy]

/-- C2 witness: the amended statement at a concrete falsy result. -/
theorem c2_empty_result_witness :
    truthy JSVal.vUndefined = false
      ∧ (readHandler Unit sampleState Option.none "w" "i" none JSVal.vUndefined
            = ([(Sev.warn, "w")], HandlerRet.undef)
          ∧ (readHandler Unit sampleState Option.none "w" "i" none (JSVal.vArr [])).1
            = [(Sev.info, "i")]) :=
  ⟨rfl, c2_empty_result Unit sampleState Option.none "w" "i" JSVal.vUndefined rfl⟩

/-- C4: with a continuation supplied and a non-empty result set delivered,
the handler's value is the continuation's return value applied to the
computed next state — never the computed next state itself. -/
theorem c4_continuation_return (ρ : Type) (st : SppState) (f : SppState → ρ)
    (wm im : String) (r : JSVal) (rs : List JSVal) :
    readHandler ρ st (some f) wm im none (JSVal.vArr (r :: rs))
        = ([(Sev.info, im)],
           HandlerRet.fromCallback (f (composeNextState st (JSVal.vArr (r :: rs)))))
      ∧ ∀ s2 : SppState,
          (readHandler ρ st (some f) wm im none (JSVal.vArr (r :: rs))).2
            ≠ HandlerRet.next s2 := by
  refine ⟨rfl, fun s2 h => ?_⟩
  simp [readHandler, truthy] at h

/-- C10: the second read's completion handler in `getEnrolledPrograms`
performs no transport-error check and no empty-result check: for every `err`
and every delivered `programs` payload (including `undefined`) it logs
nothing, replaces `data` with the payload, and invokes the continuation
unconditionally when one is supplied. -/
theorem c10_step2_unconditional (ρ : Type) (st : SppState) (f : SppState → ρ)
    (err : Option String) (programs : JSVal) :
    enrolledStep2Handler ρ st (some f) err programs
        = ([], HandlerRet.fromCallback (f (composeNextState st programs)))
      ∧ enrolledStep2Handler ρ st Option.none err programs
        = ([], HandlerRet.next (composeNextState st programs))
      ∧ (composeNextState st programs).data = programs :=
  ⟨rfl, rfl, rfl⟩

/-- C5 counterexample: the claim says zero foreign keys from step 1 never
lead to a second read, but an empty key array is truthy in JS, so
`if (programIds)` passes and the second read IS issued; and at an absent
step-1 result the run yields `undefined`, not the unchanged prior state. -/
theorem c5_short_circuit_counterexample :
    (getEnrolledProgramsRun Unit sampleState Option.none none (JSVal.vArr [])
        none JSVal.vUndefined).secondIssued = true
      ∧ (getEnrolledProgramsRun Unit sampleState Option.none none JSVal.vUndefined
          none JSVal.vUndefined).ret ≠ HandlerRet.next sampleState :=
  ⟨rfl, by simp [getEnrolledProgramsRun, truthy]⟩

/-- C5 (amended): when step 1 delivers a falsy result (absent) or an error,
no second read is issued and the run yields `undefined` — not the prior
state; when step 1 delivers an empty key array, the array is truthy, so the
second read is issued, with domain `id in []` and limit `0`. -/
theorem c5_short_circuit (ρ : Type) (st : SppState) (cb : Option (SppState → ρ))
    (e : String) (s2e : Option String) (s2r : JSVal) (s1res : JSVal)
    (h : truthy s1res = false) :
    getEnrolledProgramsRun ρ st cb none s1res s2e s2r
        = { logs := [(Sev.warn, "No enrolled program(s) found!")]
            secondIssued := false
            secondOptions := none
            ret := HandlerRet.undef }
      ∧ getEnrolledProgramsRun ρ st cb (some e) s1res s2e s2r
        = { logs := [(Sev.error, e)]
            secondIssued := false
            secondOptions := none
            ret := HandlerRet.undef }
      ∧ (getEnrolledProgramsRun ρ st cb none (JSVal.vArr []) s2e s2r).secondIssued
        = true
      ∧ (getEnrolledProgramsRun ρ st cb none (JSVal.vArr []) s2e s2r).secondOptions
        = some { domain := [JSVal.vArr [JSVal.vStr "id", JSVal.vStr "in", JSVal.vArr []]]
                 limit := 0
                 fields := ["program_id"]
                 order := none
                 offset := none } := by
  refine ⟨?_, ?_, rfl, rfl⟩
  · have hu : truthy JSVal.vUndefined = false := rfl
    simp [getEnrolledProgramsRun, h, hu]
  · simp [getEnrolledProgramsRun, truthy]

/-- C5 witness: the amended statement at a concrete falsy step-1 result. -/
theorem c5_short_circuit_witness :
    truthy JSVal.vNull = false
      ∧ (getEnrolledProgramsRun Unit sampleState Option.none none JSVal.vNull
            none JSVal.vUndefined
          = { logs := [(Sev.warn, "No enrolled program(s) found!")]
              secondIssued := false
              secondOptions := none
              ret := HandlerRet.undef }
        ∧ getEnrolledProgramsRun Unit sampleState Option.none (some "E") JSVal.vNull
            none JSVal.vUndefined
          = { logs := [(Sev.error, "E")]
              secondIssued := false
              secondOptions := none
              ret := HandlerRet.undef }
        ∧ (getEnrolledProgramsRun Unit sampleState Option.none none (JSVal.vArr [])
            none JSVal.vUndefined).secondIssued = true
        ∧ (getEnrolledProgramsRun Unit sampleState Option.none none (JSVal.vArr [])
            none JSVal.vUndefined).secondOptions
          = some { domain :=
                     [JSVal.vArr [JSVal.vStr "id", JSVal.vStr "in", JSVal.vArr []]]
                   limit := 0
                   fields := ["program_id"]
                   order := none
                   offset := none }) :=
  ⟨rfl, c5_short_circuit Unit sampleState Option.none "E" none JSVal.vUndefined
    JSVal.vNull rfl⟩

/-- C6: whenever the run of `getEnrolledPrograms` issues its second read, the
first read completed without error and its callback ran the success branch
(the info log was emitted, assigning the keys) — the second read's options
are built from that assignment, so it cannot start before the first
callback's completion — and the second read's domain is `id in keys` with
limit equal to the number of keys. -/
theorem c6_second_read (ρ : Type) (st : SppState) (cb : Option (SppState → ρ))
    (s1err : Option String) (keys : List JSVal) (s2e : Option String) (s2r : JSVal)
    (h : (getEnrolledProgramsRun ρ st cb s1err (JSVal.vArr keys) s2e s2r).secondIssued
          = true) :
    s1err = none
      ∧ (getEnrolledProgramsRun ρ st cb s1err (JSVal.vArr keys) s2e s2r).logs
        = [(Sev.info, "Enrolled program(s) found!")]
      ∧ (getEnrolledProgramsRun ρ st cb s1err (JSVal.vArr keys) s2e s2r).secondOptions
        = some { domain :=
                   [JSVal.vArr [JSVal.vStr "id", JSVal.vStr "in", JSVal.vArr keys]]
                 limit := keys.length
                 fields := ["program_id"]
                 order := none
                 offset := none } := by
  cases s1err with
  | some e => simp [getEnrolledProgramsRun, truthy] at h
  | none => refine ⟨rfl, ?_, ?_⟩ <;> simp [getEnrolledProgramsRun, truthy, jsLength]

/-- C6 witness: the statement at a concrete one-key step-1 result. -/
theorem c6_second_read_witness :
    (getEnrolledProgramsRun Unit sampleState Option.none none
        (JSVal.vArr [JSVal.vInt 7]) none JSVal.vUndefined).secondIssued = true
      ∧ ((none : Option String) = none
        ∧ (getEnrolledProgramsRun Unit sampleState Option.none none
            (JSVal.vArr [JSVal.vInt 7]) none JSVal.vUndefined).logs
          = [(Sev.info, "Enrolled program(s) found!")]
        ∧ (getEnrolledProgramsRun Unit sampleState Option.none none
            (JSVal.vArr [JSVal.vInt 7]) none JSVal.vUndefined).secondOptions
          = some { domain :=
                     [JSVal.vArr
                        [JSVal.vStr "id", JSVal.vStr "in",
                         JSVal.vArr [JSVal.vInt 7]]]
                   limit := 1
                   fields := ["program_id"]
                   order := none
                   offset := none }) :=
  ⟨rfl, c6_second_read Unit sampleState Option.none none [JSVal.vInt 7] none
    JSVal.vUndefined rfl⟩

/-- C8: a failed handshake in `login` logs the error at error severity and
throws a terminating `Error` with the human-readable message of line 76; a
thrown error stops the sequential execution of the composed operations (the
remaining operations are irrelevant to the outcome); and the only other
failure class, a transport error inside a read handler, merely logs at error
severity and yields `undefined` — it throws nothing. -/
theorem c8_login_failure (st : SppState) (e m : String) (σ : Type) (s : σ)
    (rest rest2 : List (σ → OpOutcome σ)) :
    (loginRun st (some e)).2
        = ([(Sev.error, e)],
           some "Can't login to OpenSPP, please check your credentials or network!")
      ∧ runOps ((fun _ => OpOutcome.thrown m) :: rest) s = OpOutcome.thrown m
      ∧ runOps ((fun _ => OpOutcome.thrown m) :: rest) s
        = runOps ((fun _ => OpOutcome.thrown m) :: rest2) s
      ∧ ∀ (ρ : Type) (st2 : SppState) (cb : Option (SppState → ρ)) (wm im : String)
          (result : JSVal),
          readHandler ρ st2 cb wm im (some e) result
            = ([(Sev.error, e)], HandlerRet.undef) :=
  ⟨rfl, rfl, rfl, fun ρ st2 cb wm im result => rfl⟩

/-- C3: `state` is bound neither at module scope of `Adaptor.js` nor among
any operation factory's parameters, so whenever the module-level connector is
null, applying a factory evaluates the unbound identifier `state` in
`login(state)` and fails with a ReferenceError before an operation function
is produced.  The parameter lists cover all nine public operations:
`registrant_id, callback` (getGroup, getIndividual, getEnrolledPrograms),
`registrant_id, offset, callback` (getGroupMembers), `name, offset, callback`
(getServicePoint), `domain, offset, callback` (searchGroup,
searchIndividual), `program_id, callback` (getProgram), and
`offset, callback` (getPrograms).  With a non-null connector the prologue is
skipped. -/
theorem c3_unbound_state :
    moduleScopeNames.contains "state" = false
      ∧ factoryPrologue ["registrant_id", "callback"] true
        = Except.error "ReferenceError: state is not defined"
      ∧ factoryPrologue ["registrant_id", "offset", "callback"] true
        = Except.error "ReferenceError: state is not defined"
      ∧ factoryPrologue ["name", "offset", "callback"] true
        = Except.error "ReferenceError: state is not defined"
      ∧ factoryPrologue ["domain", "offset", "callback"] true
        = Except.error "ReferenceError: state is not defined"
      ∧ factoryPrologue ["program_id", "callback"] true
        = Except.error "ReferenceError: state is not defined"
      ∧ factoryPrologue ["offset", "callback"] true
        = Except.error "ReferenceError: state is not defined"
      ∧ factoryPrologue ["registrant_id", "callback"] false = Except.ok () :=
  ⟨rfl, rfl, rfl, rfl, rfl, rfl, rfl, rfl⟩

end OpenSpp
